import Mathlib

/-!
Verification development for the echo-realtime-linguist pipeline.

The TypeScript source is shallowly embedded: JavaScript strings become
lists of characters, React state becomes explicit record states, and each
event handler / effect becomes a pure transition function on those states.
-/

namespace EchoRL

/-- JavaScript strings, modelled as lists of characters. -/
abbrev Str := List Char

/-- Characters removed by JavaScript `String.prototype.trim` (ASCII part). -/
def jsWhitespace (c : Char) : Bool :=
  c = ' ' || c = '\t' || c = '\n' || c = '\r' || c = '\x0b' || c = '\x0c'

/-- Leading-whitespace removal, as in JS `trimStart`. -/
def trimLeft (s : Str) : Str := s.dropWhile jsWhitespace

/-- Trailing-whitespace removal, as in JS `trimEnd`. -/
def trimRight (s : Str) : Str := (s.reverse.dropWhile jsWhitespace).reverse

/-- JS `String.prototype.trim`. -/
def jsTrim (s : Str) : Str := trimRight (trimLeft s)

/-- The test of the regular expression `[.?!]$` on a string. -/
def endsSentencePunct (s : Str) : Bool :=
  match s.getLast? with
  | some c => c = '.' || c = '?' || c = '!'
  | none => false

/-- JS `s.endsWith(" ")`. -/
def endsWithSpace (s : Str) : Bool := s.getLast? == some ' '

/-- JS `s.startsWith(" ")`. -/
def startsWithSpace (s : Str) : Bool := s.head? == some ' '

/-- Convenience coercion from Lean string literals to the model's strings. -/
def strL (s : String) : Str := s.data

/--
The `needsSpace` condition of the `onTranscription` callback in the Index
component:
`prevText.length > 0 && newTextChunk.length > 0 && !prevText.endsWith(" ")
 && !newTextChunk.startsWith(" ") && !/[.?!]$/.test(prevText.trim())`.
-/
def needsSpace (prevText newTextChunk : Str) : Bool :=
  !prevText.isEmpty && !newTextChunk.isEmpty &&
    !(endsWithSpace prevText) && !(startsWithSpace newTextChunk) &&
    !(endsSentencePunct (jsTrim prevText))

/--
The accumulator update of `onTranscription`:
`prevText + (needsSpace ? " " : "") + newTextChunk`.
-/
def appendChunk (prevText newTextChunk : Str) : Str :=
  prevText ++ (if needsSpace prevText newTextChunk then [' '] else []) ++ newTextChunk

/--
The spacing side-condition as the specification words it: no space when the
buffer already ends with *whitespace* or the fragment begins with
*whitespace* (the source instead tests only the space character `' '`).
This definition follows the spec's words, for comparison with `needsSpace`.
-/
def needsSpaceSpec (prevText newTextChunk : Str) : Bool :=
  !prevText.isEmpty && !newTextChunk.isEmpty &&
    !(match prevText.getLast? with | some c => jsWhitespace c | none => false) &&
    !(match newTextChunk.head? with | some c => jsWhitespace c | none => false) &&
    !(endsSentencePunct (jsTrim prevText))

/-! ## The `useTextToSpeech` hook

The hook owns two pieces of React state, `isSpeaking` and `error`.  The
`speak` function is modelled as a pure function of the input text, an
environment describing the outside world (stored API key, fetch outcome,
playback outcome), and the hook state.  It returns the final hook state
together with a flag recording whether the network request to the
synthesis provider was performed. -/

/-- State owned by the `useTextToSpeech` hook. -/
structure TtsState where
  isSpeaking : Bool
  ttsError : Option Str
deriving DecidableEq, Repr

/-- Outcome of the synthesis HTTP request, were it performed. -/
inductive FetchOutcome where
  | success
  | httpError (statusText : Str)
deriving DecidableEq, Repr

/-- Outcome of local audio playback, were it reached. -/
inductive PlayOutcome where
  | ended
  | playbackError
deriving DecidableEq, Repr

/-- Environment of one `speak` invocation. -/
structure SpeakEnv where
  elevenlabsKey : Option Str
  fetch : FetchOutcome
  play : PlayOutcome
deriving DecidableEq, Repr

/--
The `speak` function of `useTextToSpeech`, path by path:
* `if (!text.trim()) return;` — no state change at all;
* `setIsSpeaking(true); setError(null);`
* missing `elevenlabs_api_key`: `setError(...)` and an early `return`
  (note: `isSpeaking` is *not* reset on this path);
* failed fetch: the `catch` block runs `setError(...)` and
  `setIsSpeaking(false)`;
* playback end (`audio.onended`) and playback error (`audio.onerror`)
  both run `setIsSpeaking(false)` (only the catch block sets the error,
  and it is not reached from these callbacks).
The second component is `true` iff the synthesis network request was made.
-/
def speak (text : Str) (env : SpeakEnv) (s : TtsState) : TtsState × Bool :=
  if (jsTrim text).isEmpty then (s, false)
  else
    match env.elevenlabsKey with
    | none =>
        ({ isSpeaking := true,
           ttsError := some (strL "ElevenLabs API key not configured") }, false)
    | some _ =>
        match env.fetch with
        | .httpError statusText =>
            ({ isSpeaking := false,
               ttsError := some (strL "Text-to-speech failed: " ++ statusText) }, true)
        | .success =>
            match env.play with
            | .ended => ({ isSpeaking := false, ttsError := none }, true)
            | .playbackError => ({ isSpeaking := false, ttsError := none }, true)

/-! ## The `useTranslation` hook -/

/-- State owned by the `useTranslation` hook. -/
structure TransState where
  isTranslating : Bool
  translationError : Option Str
deriving DecidableEq, Repr

/-- Outcome of the translation HTTP request, were it performed. -/
inductive TranslateOutcome where
  | success (translated : Str)
  | httpError (statusText : Str)
  | malformed
deriving DecidableEq, Repr

/-- Environment of one `translateText` invocation. -/
structure TransEnv where
  azureKey : Option Str
  outcome : TranslateOutcome
deriving DecidableEq, Repr

/--
The `translateText` function of `useTranslation`, path by path:
* `if (!text.trim()) return null;` — before any state update;
* `setIsTranslating(true); setError(null);`
* missing `azure_api_key`: `setError(...)`, `return null` (the `finally`
  block still runs `setIsTranslating(false)`);
* non-ok response / malformed payload: the `catch` block sets the error,
  `finally` clears `isTranslating`;
* success: the translated text is returned.
Result: final hook state, returned value (`none` models `null`), and a
flag recording whether the network request was made.
-/
def translateText (text : Str) (env : TransEnv) (s : TransState) :
    TransState × Option Str × Bool :=
  if (jsTrim text).isEmpty then (s, none, false)
  else
    match env.azureKey with
    | none =>
        ({ isTranslating := false,
           translationError := some (strL "Azure API key not configured") }, none, false)
    | some _ =>
        match env.outcome with
        | .success translated =>
            ({ isTranslating := false, translationError := none }, some translated, true)
        | .httpError statusText =>
            ({ isTranslating := false,
               translationError := some (strL "Translation failed: " ++ statusText) },
             none, true)
        | .malformed =>
            ({ isTranslating := false,
               translationError := some (strL "Invalid translation response format") },
             none, true)

/-! ## The Index component

The component owns `sourceText`, `translatedText`, the ref
`lastSpokenTranslatedTextRef`, `isRecording`, and the debounce-timer ref
`ttsDebounceTimerRef`.  `isSpeaking` is the flag of the TTS hook as seen
by the component.  Timers are modelled explicitly: live (pending) timeouts
form a list of snapshots with distinct numeric handles, the ref
`ttsDebounceTimerRef` stores the handle of the last timer armed, and
`clearTimeout` removes the timer the ref designates (a no-op for an
already-dead handle).  A timer snapshot records the values the `setTimeout`
callback closes over: `newTranslatedPortion` and `translatedText` at
arming time. -/

/-- A pending `setTimeout` callback together with its closed-over values. -/
structure TimerSnap where
  tid : Nat
  portion : Str
  armedText : Str
deriving DecidableEq, Repr

/-- State of the Index component (plus the TTS hook's `isSpeaking` flag). -/
structure AppState where
  sourceText : Str
  translatedText : Str
  lastSpokenTranslatedText : Str
  isSpeaking : Bool
  isRecording : Bool
  pending : List TimerSnap
  timerRef : Option Nat
  nextTid : Nat
deriving DecidableEq, Repr

/-- The SpokenWatermark: length of the already-spoken prefix. -/
def spokenWatermark (st : AppState) : Nat := st.lastSpokenTranslatedText.length

/-- `translatedText.substring(lastSpokenTranslatedTextRef.current.length).trim()`. -/
def unspokenPortion (st : AppState) : Str :=
  jsTrim (st.translatedText.drop st.lastSpokenTranslatedText.length)

/-- `clearTimeout(ttsDebounceTimerRef.current)`: kill the timer the ref
designates, if it is still pending. -/
def clearTimer (st : AppState) : AppState :=
  { st with pending := st.pending.filter (fun t => some t.tid != st.timerRef) }

/-- `onTranscription` of the Index component: append the final fragment to
`sourceText` with the spacing rule. -/
def onTranscription (newTextChunk : Str) (st : AppState) : AppState :=
  { st with sourceText := appendChunk st.sourceText newTextChunk }

/-- The auto-translate effect's use of a returned translation:
`if (translated) setTranslatedText(translated);` — JS treats both `null`
and the empty string as falsy. -/
def applyTranslationResult (translated : Option Str) (st : AppState) : AppState :=
  match translated with
  | some r => if r.isEmpty then st else { st with translatedText := r }
  | none => st

/-- Result of running a component step: the next state and the text passed
to `speak`, if a synthesis call was dispatched by the step. -/
structure StepOut where
  state : AppState
  spoke : Option Str
deriving DecidableEq, Repr

/--
The TTS-playback effect of the Index component (one re-evaluation):
1. clear any existing debounce timer;
2. return if `translatedText` is blank or `isSpeaking`;
3. compute the unspoken portion; return if it is empty;
4. if it ends with `.`, `?` or `!`: `speak` it and advance the ref to the
   whole `translatedText` (dispatching `speak` with nonempty text sets
   `isSpeaking` synchronously);
5. else, while recording, arm a single 700 ms debounce timer capturing the
   portion and the current `translatedText`;
6. else (not recording), `speak` the portion immediately, same advance.
-/
def ttsEffect (st : AppState) : StepOut :=
  let st := clearTimer st
  if (jsTrim st.translatedText).isEmpty || st.isSpeaking then ⟨st, none⟩
  else
    let newTranslatedPortion := unspokenPortion st
    if newTranslatedPortion.isEmpty then ⟨st, none⟩
    else if endsSentencePunct newTranslatedPortion then
      ⟨{ st with lastSpokenTranslatedText := st.translatedText, isSpeaking := true },
       some newTranslatedPortion⟩
    else if st.isRecording then
      ⟨{ st with
           pending := st.pending ++ [⟨st.nextTid, newTranslatedPortion, st.translatedText⟩],
           timerRef := some st.nextTid,
           nextTid := st.nextTid + 1 }, none⟩
    else
      ⟨{ st with lastSpokenTranslatedText := st.translatedText, isSpeaking := true },
       some newTranslatedPortion⟩

/--
A pending debounce timer fires: the timeout is consumed, and the callback
of the snapshot runs:
`if (!isSpeaking && translatedText.substring(ref.current.length).trim()
     === newTranslatedPortion) { speak(newTranslatedPortion); ref.current
     = translatedText; }`
where `translatedText` and `newTranslatedPortion` are the closed-over
values and `ref.current` is read at fire time.
-/
def fireTimer (t : TimerSnap) (st : AppState) : StepOut :=
  let st := { st with pending := st.pending.erase t }
  if !st.isSpeaking &&
      jsTrim (t.armedText.drop st.lastSpokenTranslatedText.length) == t.portion then
    ⟨{ st with lastSpokenTranslatedText := t.armedText, isSpeaking := true },
     some t.portion⟩
  else ⟨st, none⟩

/--
The `isRecording` branch of `handleRecordingToggle`: stop recording, clear
the debounce timer, and if a nonempty unspoken remainder exists and nothing
is speaking, `speak` it and advance the ref to the whole `translatedText`.
-/
def handleRecordingToggleStop (st : AppState) : StepOut :=
  let st := clearTimer { st with isRecording := false }
  let remainingText := unspokenPortion st
  if !remainingText.isEmpty && !st.isSpeaking then
    ⟨{ st with lastSpokenTranslatedText := st.translatedText, isSpeaking := true },
     some remainingText⟩
  else ⟨st, none⟩

/--
The start branch of `handleRecordingToggle` (successful `startRecording`):
reset `sourceText`, `translatedText` and the spoken ref, clear the debounce
timer, set `isRecording`.
-/
def handleRecordingToggleStart (st : AppState) : AppState :=
  let st := clearTimer
    { st with sourceText := [], translatedText := [], lastSpokenTranslatedText := [] }
  { st with isRecording := true }

/-- The update steps of a running session, as seen by the component: a
translation result is applied (which re-runs the TTS effect), the TTS
effect re-runs for any other reason, a pending debounce timer fires, or
recording is stopped. -/
inductive Step where
  | transResult (translated : Option Str)
  | ttsTick
  | fire (t : TimerSnap)
  | stop
deriving DecidableEq, Repr

/-- Apply one session update step. -/
def applyStep : Step → AppState → StepOut
  | .transResult r, st => ttsEffect (applyTranslationResult r st)
  | .ttsTick, st => ttsEffect st
  | .fire t, st => fireTimer t st
  | .stop, st => handleRecordingToggleStop st

/-- A `fire t` step is only meaningful for a timer that is actually
pending; the other steps are always enabled. -/
def stepOk : Step → AppState → Prop
  | .fire t, st => t ∈ st.pending
  | _, _ => True

instance (step : Step) (st : AppState) : Decidable (stepOk step st) := by
  cases step <;> simp [stepOk] <;> infer_instance

/-- Well-formedness of the timer bookkeeping, maintained by every step:
at most one timeout is pending; a pending timeout is the one the ref
designates, has a handle below the fresh-handle counter, captured a
nonempty portion, and captured the current `translatedText`. -/
def wfTimers (st : AppState) : Bool :=
  decide (st.pending.length ≤ 1) &&
    st.pending.all (fun t =>
      st.timerRef == some t.tid && decide (t.tid < st.nextTid) &&
        !t.portion.isEmpty && t.armedText == st.translatedText)

/-! ## Concrete states used to evaluate the model -/

/-- A speak environment with a stored key and fully successful remote
calls. -/
def envWithKey : SpeakEnv :=
  { elevenlabsKey := some (strL "key"), fetch := .success, play := .ended }

/-- An idle TTS hook state. -/
def ttsIdle : TtsState := { isSpeaking := false, ttsError := none }

/-- A TTS hook state with a playback already active. -/
def ttsBusy : TtsState := { isSpeaking := true, ttsError := none }

/-- A session state in which the newer translation `"Hola mundo"` of the
full source has been applied and spoken, while the translation of an
older, shorter source prefix is still in flight. -/
def staleRaceState : AppState :=
  { sourceText := strL "Hello world",
    translatedText := strL "Hola mundo",
    lastSpokenTranslatedText := strL "Hola mundo",
    isSpeaking := false,
    isRecording := true,
    pending := [],
    timerRef := none,
    nextTid := 1 }

/-- A mid-session state with unspoken translated text and no pending
timer. -/
def baseState : AppState :=
  { sourceText := strL "Hello",
    translatedText := strL "Hola mundo.",
    lastSpokenTranslatedText := [],
    isSpeaking := false,
    isRecording := true,
    pending := [],
    timerRef := none,
    nextTid := 0 }

/-- The debounce timer armed for the whole of `"Gracias por tu tiempo"`. -/
def tSnap0 : TimerSnap :=
  { tid := 0,
    portion := strL "Gracias por tu tiempo",
    armedText := strL "Gracias por tu tiempo" }

/-- A mid-session state with a pending debounce timer for the unspoken
portion `"Gracias por tu tiempo"` (no terminal punctuation). -/
def debouncedState : AppState :=
  { sourceText := strL "Thank you for your time",
    translatedText := strL "Gracias por tu tiempo",
    lastSpokenTranslatedText := [],
    isSpeaking := false,
    isRecording := true,
    pending := [tSnap0],
    timerRef := some 0,
    nextTid := 1 }

/-- `debouncedState` while a playback is active. -/
def speakingState : AppState :=
  { debouncedState with isSpeaking := true }

/-! ## Helper lemmas -/

theorem jsTrim_nil : jsTrim ([] : Str) = [] := rfl

/-- A nonempty trimmed suffix forces the suffix to start inside the list. -/
theorem lt_length_of_unspoken (l : Str) (n : Nat)
    (h : (jsTrim (l.drop n)).isEmpty = false) : n < l.length := by
  by_contra hn
  push_neg at hn
  rw [List.drop_eq_nil_of_le hn, jsTrim_nil] at h
  simp at h


@[simp] theorem clearTimer_sourceText (st : AppState) :
    (clearTimer st).sourceText = st.sourceText := rfl

@[simp] theorem clearTimer_translatedText (st : AppState) :
    (clearTimer st).translatedText = st.translatedText := rfl

@[simp] theorem clearTimer_lastSpoken (st : AppState) :
    (clearTimer st).lastSpokenTranslatedText = st.lastSpokenTranslatedText := rfl

@[simp] theorem clearTimer_isSpeaking (st : AppState) :
    (clearTimer st).isSpeaking = st.isSpeaking := rfl

@[simp] theorem clearTimer_isRecording (st : AppState) :
    (clearTimer st).isRecording = st.isRecording := rfl

@[simp] theorem clearTimer_timerRef (st : AppState) :
    (clearTimer st).timerRef = st.timerRef := rfl

@[simp] theorem clearTimer_nextTid (st : AppState) :
    (clearTimer st).nextTid = st.nextTid := rfl

@[simp] theorem unspokenPortion_clearTimer (st : AppState) :
    unspokenPortion (clearTimer st) = unspokenPortion st := rfl

@[simp] theorem spokenWatermark_clearTimer (st : AppState) :
    spokenWatermark (clearTimer st) = spokenWatermark st := rfl

/-- Unpacking of the timer invariant. -/
theorem wfTimers_cases (st : AppState) (hwf : wfTimers st = true) :
    st.pending = [] ∨
      ∃ t, st.pending = [t] ∧ st.timerRef = some t.tid ∧
        t.tid < st.nextTid ∧ t.portion ≠ [] ∧ t.armedText = st.translatedText := by
  unfold wfTimers at hwf
  simp only [Bool.and_eq_true, List.all_eq_true, decide_eq_true_eq, beq_iff_eq,
    Bool.not_eq_true', List.isEmpty_eq_false] at hwf
  obtain ⟨hlen, hall⟩ := hwf
  rcases hp : st.pending with _ | ⟨t, _ | ⟨u, l⟩⟩
  · exact Or.inl rfl
  · have ht := hall t (by rw [hp]; exact List.mem_singleton.mpr rfl)
    exact Or.inr ⟨t, rfl, ht.1.1.1, ht.1.1.2, ht.1.2, ht.2⟩
  · rw [hp] at hlen
    simp at hlen

/-- Under the timer invariant, clearing the ref'd timer empties the
pending list. -/
theorem clearTimer_pending (st : AppState) (hwf : wfTimers st = true) :
    (clearTimer st).pending = [] := by
  rcases wfTimers_cases st hwf with h | ⟨t, hp, hr, _⟩
  · simp [clearTimer, h]
  · simp [clearTimer, hp, hr]

/-- Applying a translation result touches at most `translatedText`. -/
theorem applyTranslationResult_fields (r : Option Str) (st : AppState) :
    (applyTranslationResult r st).sourceText = st.sourceText ∧
    (applyTranslationResult r st).lastSpokenTranslatedText = st.lastSpokenTranslatedText ∧
    (applyTranslationResult r st).isSpeaking = st.isSpeaking ∧
    (applyTranslationResult r st).isRecording = st.isRecording ∧
    (applyTranslationResult r st).pending = st.pending ∧
    (applyTranslationResult r st).timerRef = st.timerRef ∧
    (applyTranslationResult r st).nextTid = st.nextTid := by
  cases r with
  | none => simp [applyTranslationResult]
  | some s =>
      by_cases hs : s.isEmpty = true <;> simp [applyTranslationResult, hs]

/-- The TTS effect never moves the watermark backwards. -/
theorem watermark_ttsEffect (st : AppState) :
    spokenWatermark st ≤ spokenWatermark (ttsEffect st).state := by
  simp only [ttsEffect]
  split
  · simp
  · split
    · simp
    · split
      · rename_i h1 h2 h3
        rw [Bool.not_eq_true] at h2
        simp only [unspokenPortion_clearTimer, unspokenPortion] at h2
        have hlt := lt_length_of_unspoken st.translatedText
          st.lastSpokenTranslatedText.length h2
        simpa [spokenWatermark] using le_of_lt hlt
      · split
        · simp [spokenWatermark]
        · rename_i h1 h2 h3 h4
          rw [Bool.not_eq_true] at h2
          simp only [unspokenPortion_clearTimer, unspokenPortion] at h2
          have hlt := lt_length_of_unspoken st.translatedText
            st.lastSpokenTranslatedText.length h2
          simpa [spokenWatermark] using le_of_lt hlt

/-- A nonempty list is not `isEmpty`. -/
theorem isEmpty_false_of_ne_nil {l : Str} (h : l ≠ []) : l.isEmpty = false := by
  cases l with
  | nil => exact absurd rfl h
  | cons c cs => rfl

/-- A fired timer never moves the watermark backwards. -/
theorem watermark_fireTimer (st : AppState) (t : TimerSnap)
    (hwf : wfTimers st = true) (ht : t ∈ st.pending) :
    spokenWatermark st ≤ spokenWatermark (fireTimer t st).state := by
  rcases wfTimers_cases st hwf with h | ⟨u, hp, hr, _, hport, harm⟩
  · rw [h] at ht; cases ht
  · rw [hp] at ht
    have htu : t = u := by simpa using ht
    subst htu
    simp only [fireTimer]
    split
    · rename_i hcond
      simp only [Bool.and_eq_true, Bool.not_eq_true', beq_iff_eq] at hcond
      have hne : (jsTrim (t.armedText.drop st.lastSpokenTranslatedText.length)).isEmpty
          = false := by
        rw [hcond.2]
        exact isEmpty_false_of_ne_nil hport
      have hlt := lt_length_of_unspoken t.armedText
        st.lastSpokenTranslatedText.length hne
      simpa [spokenWatermark] using le_of_lt hlt
    · simp [spokenWatermark]

/-- Stopping the recording never moves the watermark backwards. -/
theorem watermark_stop (st : AppState) :
    spokenWatermark st ≤ spokenWatermark (handleRecordingToggleStop st).state := by
  simp only [handleRecordingToggleStop]
  split
  · rename_i h
    simp only [Bool.and_eq_true, Bool.not_eq_true'] at h
    have hlt := lt_length_of_unspoken st.translatedText
      st.lastSpokenTranslatedText.length (by simpa [unspokenPortion] using h.1)
    simpa [spokenWatermark] using le_of_lt hlt
  · simp [spokenWatermark]

/-- No session update step moves the watermark backwards. -/
theorem watermark_mono (st : AppState) (step : Step)
    (hwf : wfTimers st = true) (hok : stepOk step st) :
    spokenWatermark st ≤ spokenWatermark (applyStep step st).state := by
  cases step with
  | transResult r =>
      have hfields := applyTranslationResult_fields r st
      have h1 : spokenWatermark (applyTranslationResult r st) = spokenWatermark st := by
        simp [spokenWatermark, hfields.2.1]
      calc spokenWatermark st
          = spokenWatermark (applyTranslationResult r st) := h1.symm
        _ ≤ _ := watermark_ttsEffect _
  | ttsTick => exact watermark_ttsEffect st
  | fire t => exact watermark_fireTimer st t hwf hok
  | stop => exact watermark_stop st

/-- The TTS effect restores the timer invariant (whatever state it runs
on, provided clearing empties the pending list). -/
theorem wfTimers_ttsEffect (st : AppState) (hpend : (clearTimer st).pending = []) :
    wfTimers (ttsEffect st).state = true := by
  simp only [ttsEffect]
  split
  · simp [wfTimers, hpend]
  · split
    · simp [wfTimers, hpend]
    · split
      · simp [wfTimers, hpend]
      · split
        · rename_i h1 h2 h3 h4
          rw [Bool.not_eq_true] at h2
          simp [wfTimers, hpend]
          simpa [List.isEmpty_eq_false] using h2
        · simp [wfTimers, hpend]

/-- Applying a translation result and re-running the effect restores the
timer invariant. -/
theorem clearTimer_pending_applyTranslation (r : Option Str) (st : AppState)
    (hwf : wfTimers st = true) :
    (clearTimer (applyTranslationResult r st)).pending = [] := by
  obtain ⟨_, _, _, _, hpend, href, _⟩ := applyTranslationResult_fields r st
  rcases wfTimers_cases st hwf with h | ⟨t, hp, hr, _⟩
  · simp [clearTimer, hpend, h]
  · simp [clearTimer, hpend, href, hp, hr]

/-- Firing a pending timer preserves the timer invariant. -/
theorem wfTimers_fireTimer (st : AppState) (t : TimerSnap)
    (hwf : wfTimers st = true) (ht : t ∈ st.pending) :
    wfTimers (fireTimer t st).state = true := by
  rcases wfTimers_cases st hwf with h | ⟨u, hp, _⟩
  · rw [h] at ht; cases ht
  · rw [hp] at ht
    have htu : t = u := by simpa using ht
    subst htu
    have herase : st.pending.erase t = [] := by
      rw [hp]; simp
    simp only [fireTimer]
    split <;> simp [wfTimers, herase]

/-- Stopping the recording preserves the timer invariant. -/
theorem wfTimers_stop (st : AppState) (hwf : wfTimers st = true) :
    wfTimers (handleRecordingToggleStop st).state = true := by
  have hpend : (clearTimer { st with isRecording := false }).pending = [] :=
    clearTimer_pending { st with isRecording := false } hwf
  simp only [handleRecordingToggleStop]
  split <;> simp [wfTimers, hpend]

/-- Every session update step preserves the timer invariant. -/
theorem wfTimers_applyStep (st : AppState) (step : Step)
    (hwf : wfTimers st = true) (hok : stepOk step st) :
    wfTimers (applyStep step st).state = true := by
  cases step with
  | transResult r =>
      exact wfTimers_ttsEffect _ (clearTimer_pending_applyTranslation r st hwf)
  | ttsTick => exact wfTimers_ttsEffect st (clearTimer_pending st hwf)
  | fire t => exact wfTimers_fireTimer st t hwf hok
  | stop => exact wfTimers_stop st hwf

@[simp] theorem unspokenPortion_setRecording (st : AppState) (b : Bool) :
    unspokenPortion { st with isRecording := b } = unspokenPortion st := rfl

@[simp] theorem spokenWatermark_setRecording (st : AppState) (b : Bool) :
    spokenWatermark { st with isRecording := b } = spokenWatermark st := rfl

/-- The timer invariant bounds the number of pending timeouts. -/
theorem pending_le_one_of_wf (st : AppState) (hwf : wfTimers st = true) :
    st.pending.length ≤ 1 := by
  rcases wfTimers_cases st hwf with h | ⟨t, hp, _⟩
  · simp [h]
  · simp [hp]

/-- The pending list after a TTS effect: either empty, or exactly the
newly armed timer with the fresh handle. -/
theorem ttsEffect_pending (st : AppState) (hclear : (clearTimer st).pending = []) :
    (ttsEffect st).state.pending = [] ∨
    (ttsEffect st).state.pending =
      [⟨st.nextTid, unspokenPortion st, st.translatedText⟩] := by
  simp only [ttsEffect]
  split
  · exact Or.inl hclear
  · split
    · exact Or.inl hclear
    · split
      · exact Or.inl hclear
      · split
        · right
          simp [hclear]
        · exact Or.inl hclear

/-! ## Claims -/

/-- C1 counterexample: the claim exempts a buffer ending in *any*
whitespace from space insertion, predicting plain concatenation for
`b = "a\t"`, `f = "b"`; the code only tests the space character, so it
inserts a space there. -/
theorem C1_counterexample :
    needsSpaceSpec (strL "a\t") (strL "b") = false ∧
    appendChunk (strL "a\t") (strL "b") ≠ strL "a\t" ++ strL "b" := by
  decide

/-- C1 (amended): the accumulator inserts exactly one space between `b`
and `f` unless `b` is empty, `f` is empty, `b` ends with the space
character `' '`, `f` begins with the space character `' '`, or `b`'s
trimmed form ends with `.`, `?` or `!`; in those cases the result is the
plain concatenation `b ++ f`. -/
theorem C1_spacing_rule (b f : Str) :
    ((b = [] ∨ f = [] ∨ b.getLast? = some ' ' ∨ f.head? = some ' ' ∨
        endsSentencePunct (jsTrim b) = true) →
      appendChunk b f = b ++ f) ∧
    (b ≠ [] → f ≠ [] → b.getLast? ≠ some ' ' → f.head? ≠ some ' ' →
      endsSentencePunct (jsTrim b) = false →
      appendChunk b f = b ++ ' ' :: f) := by
  constructor
  · intro h
    have hns : needsSpace b f = false := by
      rcases h with h | h | h | h | h <;>
        simp [needsSpace, endsWithSpace, startsWithSpace, h]
    simp [appendChunk, hns]
  · intro hb hf hbs hfs hp
    have hns : needsSpace b f = true := by
      simp [needsSpace, endsWithSpace, startsWithSpace,
        isEmpty_false_of_ne_nil hb, isEmpty_false_of_ne_nil hf, hbs, hfs, hp]
    simp [appendChunk, hns]

/-- C1 witness: both regimes of the amended spacing rule at concrete
inputs. -/
theorem C1_spacing_rule_witness :
    appendChunk (strL "Hello") (strL "world") = strL "Hello" ++ ' ' :: strL "world" ∧
    appendChunk (strL "Hi.") (strL "Bye") = strL "Hi." ++ strL "Bye" :=
  ⟨(C1_spacing_rule (strL "Hello") (strL "world")).2 (by decide) (by decide)
      (by decide) (by decide) (by decide),
   (C1_spacing_rule (strL "Hi.") (strL "Bye")).1 (by decide)⟩

/-- C8 counterexample: appending `"World"` to `"Hello."` yields
`"Hello.World"` (the trimmed buffer ends with `.`, so no space is
inserted), not `"Hello. World"` as the claim states. -/
theorem C8_counterexample :
    appendChunk (strL "Hello.") (strL "World") = strL "Hello.World" ∧
    strL "Hello.World" ≠ strL "Hello. World" := by
  decide

/-- C8 (amended): appending `"World"` to `"Hello."` produces
`"Hello.World"`; at a boundary where the buffer is nonempty and does not
end with a space, the fragment is nonempty and does not start with a
space, and the trimmed buffer does not end with `.`, `?` or `!`, exactly
one space separates the two (never zero, never two); when either side
already carries the boundary space, nothing is added, so a double space
appears only if the two sides together already contain one. -/
theorem C8_boundary_spacing (b f : Str) :
    appendChunk (strL "Hello.") (strL "World") = strL "Hello.World" ∧
    (b ≠ [] → f ≠ [] → endsWithSpace b = false → startsWithSpace f = false →
      endsSentencePunct (jsTrim b) = false →
      appendChunk b f = b ++ ' ' :: f) ∧
    (endsWithSpace b = true → appendChunk b f = b ++ f) ∧
    (startsWithSpace f = true → appendChunk b f = b ++ f) := by
  refine ⟨by decide, ?_, ?_, ?_⟩
  · intro hb hf hbs hfs hp
    have hns : needsSpace b f = true := by
      simp [needsSpace, isEmpty_false_of_ne_nil hb, isEmpty_false_of_ne_nil hf,
        hbs, hfs, hp]
    simp [appendChunk, hns]
  · intro hbs
    have hns : needsSpace b f = false := by simp [needsSpace, hbs]
    simp [appendChunk, hns]
  · intro hfs
    have hns : needsSpace b f = false := by simp [needsSpace, hfs]
    simp [appendChunk, hns]

/-- C8 witness: the single-space regime and the carried-space regime at
concrete inputs. -/
theorem C8_boundary_spacing_witness :
    appendChunk (strL "Hello") (strL "world") = strL "Hello" ++ ' ' :: strL "world" ∧
    appendChunk (strL "Hello ") (strL "world") = strL "Hello " ++ strL "world" :=
  ⟨(C8_boundary_spacing (strL "Hello") (strL "world")).2.1 (by decide) (by decide)
      (by decide) (by decide) (by decide),
   (C8_boundary_spacing (strL "Hello ") (strL "world")).2.2.1 (by decide)⟩

/-- C3: the auto-translate effect applies whichever translation result is
applied last, with no sequence tagging or cancellation in the state: from
a state where the newer call's result `"Hola mundo"` is already in the
buffer, applying the older in-flight call's result `"Hola"` overwrites the
buffer with the stale data. -/
theorem C3_stale_result_overwrites :
    staleRaceState.translatedText = strL "Hola mundo" ∧
    (applyStep (Step.transResult (some (strL "Hola"))) staleRaceState).state.translatedText
      = strL "Hola" := by
  decide

/-- C4 counterexample: from the timer-well-formed state reached when
`"Hola mundo"` has been spoken, applying the stale translation result
`"Hola"` leaves the watermark (10) strictly above the buffer length (4),
violating the claimed bound `watermark ≤ length(TranslatedTextBuffer)`. -/
theorem C4_counterexample :
    wfTimers staleRaceState = true ∧
    spokenWatermark (applyStep (Step.transResult (some (strL "Hola"))) staleRaceState).state
      > (applyStep (Step.transResult (some (strL "Hola"))) staleRaceState).state.translatedText.length := by
  decide

/-- C4 (amended): within a session, no update step (translation result
applied, TTS effect re-run, debounce fired, recording stopped) ever
decreases the SpokenWatermark, the timer invariant is preserved, and the
watermark is reset to `0` at session start; the bound
`watermark ≤ length(TranslatedTextBuffer)` is not maintained — applying a
translation result shorter than the current watermark leaves the
watermark above the buffer length. -/
theorem C4_watermark_monotone (st : AppState) (step : Step)
    (hwf : wfTimers st = true) (hok : stepOk step st) :
    spokenWatermark st ≤ spokenWatermark (applyStep step st).state ∧
    wfTimers (applyStep step st).state = true ∧
    spokenWatermark (handleRecordingToggleStart st) = 0 :=
  ⟨watermark_mono st step hwf hok, wfTimers_applyStep st step hwf hok, rfl⟩

/-- C4 witness: watermark monotonicity across a TTS-effect step at a
concrete state. -/
theorem C4_watermark_monotone_witness :
    spokenWatermark baseState ≤ spokenWatermark (applyStep Step.ttsTick baseState).state ∧
    wfTimers (applyStep Step.ttsTick baseState).state = true ∧
    spokenWatermark (handleRecordingToggleStart baseState) = 0 :=
  C4_watermark_monotone baseState Step.ttsTick (by decide) (by decide)

/-- C6: of `speak`'s four completion paths, playback end, playback error
and synthesis failure all clear the currently-speaking flag, but the
missing-credential path returns early after setting it, leaving
`isSpeaking` permanently `true`. -/
theorem C6_missing_key_leaves_flag_set :
    (speak (strL "Hola")
        { elevenlabsKey := none, fetch := .success, play := .ended } ttsIdle).1
      = { isSpeaking := true,
          ttsError := some (strL "ElevenLabs API key not configured") } ∧
    (speak (strL "Hola")
        { elevenlabsKey := some (strL "key"), fetch := .httpError (strL "Unauthorized"),
          play := .ended } ttsIdle).1.isSpeaking = false ∧
    (speak (strL "Hola")
        { elevenlabsKey := some (strL "key"), fetch := .success,
          play := .playbackError } ttsIdle).1.isSpeaking = false ∧
    (speak (strL "Hola") envWithKey ttsIdle).1.isSpeaking = false := by
  decide

/-- C10: `speak` on empty or whitespace-only text returns before touching
any state: the hook state (speaking flag and error) is unchanged and no
network call is made. -/
theorem C10_blank_text_noop (text : Str) (env : SpeakEnv) (t : TtsState)
    (h : (jsTrim text).isEmpty = true) :
    speak text env t = (t, false) := by
  simp [speak, h]

/-- C10 witness: whitespace-only input at a concrete state. -/
theorem C10_blank_text_noop_witness :
    speak (strL "   ") envWithKey ttsIdle = (ttsIdle, false) :=
  C10_blank_text_noop (strL "   ") envWithKey ttsIdle (by decide)

/-- C2 counterexample: with a playback already active, a second `speak`
request is not rejected by the synthesis call — it proceeds and performs
the synthesis network request. -/
theorem C2_counterexample :
    ttsBusy.isSpeaking = true ∧
    (speak (strL "Hola mundo.") envWithKey ttsBusy).2 = true := by
  decide

/-- C2 (amended): while a synthesis+playback is active, every
speak-decision step (TTS effect, stop flush, debounce fire) dispatches
nothing; the synthesis call itself performs no such check — whenever the
text is non-blank it performs the network request exactly when a key is
stored, regardless of the speaking flag, so mutual exclusion rests
entirely on callers checking the flag before invoking. -/
theorem C2_caller_side_mutex (st : AppState) (t : TimerSnap) (text : Str)
    (env : SpeakEnv) (s : TtsState) (hsp : st.isSpeaking = true) :
    (ttsEffect st).spoke = none ∧
    (handleRecordingToggleStop st).spoke = none ∧
    (fireTimer t st).spoke = none ∧
    ((jsTrim text).isEmpty = false →
      (speak text env s).2 = env.elevenlabsKey.isSome) := by
  refine ⟨?_, ?_, ?_, ?_⟩
  · simp [ttsEffect, hsp]
  · simp [handleRecordingToggleStop, hsp]
  · simp [fireTimer, hsp]
  · intro h
    cases env with
    | mk key fetch play =>
        cases key with
        | none => simp [speak, h]
        | some k => cases fetch <;> cases play <;> simp [speak, h]

/-- C2 witness: decision steps are inert in a speaking state, while the
synthesis call itself still performs the request. -/
theorem C2_caller_side_mutex_witness :
    (ttsEffect speakingState).spoke = none ∧
    (handleRecordingToggleStop speakingState).spoke = none ∧
    (fireTimer tSnap0 speakingState).spoke = none ∧
    (speak (strL "Hola") envWithKey ttsBusy).2 = envWithKey.elevenlabsKey.isSome :=
  ⟨(C2_caller_side_mutex speakingState tSnap0 (strL "Hola") envWithKey ttsBusy
      (by decide)).1,
   (C2_caller_side_mutex speakingState tSnap0 (strL "Hola") envWithKey ttsBusy
      (by decide)).2.1,
   (C2_caller_side_mutex speakingState tSnap0 (strL "Hola") envWithKey ttsBusy
      (by decide)).2.2.1,
   (C2_caller_side_mutex speakingState tSnap0 (strL "Hola") envWithKey ttsBusy
      (by decide)).2.2.2 (by decide)⟩

/-- C7: stopping the recording with a nonempty unpunctuated unspoken
portion and no active playback clears the pending debounce timer, issues
exactly one synthesis call for the whole unspoken portion, and advances
the watermark to the full buffer length. -/
theorem C7_stop_flushes_remainder (st : AppState)
    (hwf : wfTimers st = true) (_hrec : st.isRecording = true)
    (hsp : st.isSpeaking = false) (hne : unspokenPortion st ≠ [])
    (_hpunct : endsSentencePunct (unspokenPortion st) = false) :
    (handleRecordingToggleStop st).state.pending = [] ∧
    (handleRecordingToggleStop st).spoke = some (unspokenPortion st) ∧
    spokenWatermark (handleRecordingToggleStop st).state = st.translatedText.length ∧
    (handleRecordingToggleStop st).state.isRecording = false := by
  have hpend : (clearTimer { st with isRecording := false }).pending = [] :=
    clearTimer_pending { st with isRecording := false } hwf
  simp only [handleRecordingToggleStop]
  split
  · exact ⟨hpend, by simp, by simp [spokenWatermark], rfl⟩
  · rename_i hcond
    exfalso
    apply hcond
    simpa [unspokenPortion, hsp] using hne

/-- C7 witness: the stop flush at the `"Gracias por tu tiempo"` state with
a timer pending. -/
theorem C7_stop_flushes_remainder_witness :
    (handleRecordingToggleStop debouncedState).state.pending = [] ∧
    (handleRecordingToggleStop debouncedState).spoke
      = some (unspokenPortion debouncedState) ∧
    spokenWatermark (handleRecordingToggleStop debouncedState).state
      = debouncedState.translatedText.length ∧
    (handleRecordingToggleStop debouncedState).state.isRecording = false :=
  C7_stop_flushes_remainder debouncedState (by decide) (by decide) (by decide)
    (by decide) (by decide)

/-- C9: with no stored key, translation and synthesis each set their
configuration-error message and return without a network call; the
returned translation is `null`, so applying it changes no component
state (buffers and watermark untouched), and `speak` touches only its
own hook state. -/
theorem C9_missing_key_config_error (text : Str) (envT : TransEnv) (envS : SpeakEnv)
    (s : TransState) (t : TtsState) (st : AppState)
    (htext : (jsTrim text).isEmpty = false)
    (hkT : envT.azureKey = none) (hkS : envS.elevenlabsKey = none) :
    translateText text envT s =
      ({ isTranslating := false,
         translationError := some (strL "Azure API key not configured") },
       none, false) ∧
    applyTranslationResult (translateText text envT s).2.1 st = st ∧
    speak text envS t =
      ({ isSpeaking := true,
         ttsError := some (strL "ElevenLabs API key not configured") }, false) := by
  have h1 : translateText text envT s =
      ({ isTranslating := false,
         translationError := some (strL "Azure API key not configured") },
       none, false) := by
    simp [translateText, htext, hkT]
  refine ⟨h1, ?_, ?_⟩
  · rw [h1]; rfl
  · simp [speak, htext, hkS]

/-- C9 witness: missing keys at concrete inputs leave the base state
untouched. -/
theorem C9_missing_key_config_error_witness :
    translateText (strL "Hello") { azureKey := none, outcome := .malformed }
        { isTranslating := false, translationError := none } =
      ({ isTranslating := false,
         translationError := some (strL "Azure API key not configured") },
       none, false) ∧
    applyTranslationResult
        (translateText (strL "Hello") { azureKey := none, outcome := .malformed }
          { isTranslating := false, translationError := none }).2.1 baseState
      = baseState ∧
    speak (strL "Hello") { elevenlabsKey := none, fetch := .success, play := .ended }
        ttsIdle =
      ({ isSpeaking := true,
         ttsError := some (strL "ElevenLabs API key not configured") }, false) :=
  C9_missing_key_config_error (strL "Hello") { azureKey := none, outcome := .malformed }
    { elevenlabsKey := none, fetch := .success, play := .ended }
    { isTranslating := false, translationError := none } ttsIdle baseState
    (by decide) (by decide) (by decide)

/-- C5: at most one debounce timer is ever pending (every step preserves
the single-timer invariant); re-arming always cancels the previously
armed timer (its handle is gone afterwards); and a fired timer speaks its
captured portion exactly when that portion still equals the current
unspoken text and nothing is speaking — otherwise it only expires, with
no other state change. -/
theorem C5_single_debounce_timer (st : AppState) (t : TimerSnap) (step : Step)
    (hwf : wfTimers st = true) (hok : stepOk step st) :
    (applyStep step st).state.pending.length ≤ 1 ∧
    (st.pending = [t] → ∀ s ∈ (ttsEffect st).state.pending, s.tid ≠ t.tid) ∧
    (t ∈ st.pending → st.isSpeaking = false →
      jsTrim (st.translatedText.drop st.lastSpokenTranslatedText.length) = t.portion →
      fireTimer t st =
        ⟨{ st with
             pending := (st.pending.erase t),
             lastSpokenTranslatedText := st.translatedText,
             isSpeaking := true },
         some t.portion⟩) ∧
    (t ∈ st.pending →
      (st.isSpeaking = true ∨
        jsTrim (st.translatedText.drop st.lastSpokenTranslatedText.length) ≠ t.portion) →
      fireTimer t st = ⟨{ st with pending := (st.pending.erase t) }, none⟩) := by
  refine ⟨?_, ?_, ?_, ?_⟩
  · exact pending_le_one_of_wf _ (wfTimers_applyStep st step hwf hok)
  · intro hp s hs
    rcases wfTimers_cases st hwf with h | ⟨u, hu, hr, htid, _, _⟩
    · rw [h] at hp; simp at hp
    · have hut : u = t := by
        have := hu.symm.trans hp
        simpa using this
      subst hut
      rcases ttsEffect_pending st (clearTimer_pending st hwf) with he | he
      · rw [he] at hs; simp at hs
      · rw [he] at hs
        have hse : s = ⟨st.nextTid, unspokenPortion st, st.translatedText⟩ := by
          simpa using hs
        rw [hse]
        exact ne_of_gt htid
  · intro ht hsp hguard
    rcases wfTimers_cases st hwf with h | ⟨u, hu, hr, htid, hport, harm⟩
    · rw [h] at ht; simp at ht
    · rw [hu] at ht
      have htu : t = u := by simpa using ht
      subst htu
      have hcond : (!st.isSpeaking &&
          (jsTrim (t.armedText.drop st.lastSpokenTranslatedText.length)
            == t.portion)) = true := by
        rw [harm, hguard, hsp]
        simp
      simp [fireTimer, hcond, harm]
      exact ⟨hsp, hguard⟩
  · intro ht hbad
    rcases wfTimers_cases st hwf with h | ⟨u, hu, hr, htid, hport, harm⟩
    · rw [h] at ht; simp at ht
    · rw [hu] at ht
      have htu : t = u := by simpa using ht
      subst htu
      have hcond : (!st.isSpeaking &&
          (jsTrim (t.armedText.drop st.lastSpokenTranslatedText.length)
            == t.portion)) = false := by
        rcases hbad with hb | hb
        · rw [hb]; simp
        · rw [harm]; simp [hb]
      simp [fireTimer, hcond]

/-- C5 witness: firing the pending timer of the debounced state speaks its
captured portion; the step keeps at most one timer pending. -/
theorem C5_single_debounce_timer_witness :
    (applyStep (Step.fire tSnap0) debouncedState).state.pending.length ≤ 1 ∧
    fireTimer tSnap0 debouncedState =
      ⟨{ debouncedState with
           pending := (debouncedState.pending.erase tSnap0),
           lastSpokenTranslatedText := debouncedState.translatedText,
           isSpeaking := true },
       some tSnap0.portion⟩ :=
  ⟨(C5_single_debounce_timer debouncedState tSnap0 (Step.fire tSnap0)
      (by decide) (by decide)).1,
   (C5_single_debounce_timer debouncedState tSnap0 (Step.fire tSnap0)
      (by decide) (by decide)).2.2.1 (by decide) (by decide) (by decide)⟩

end EchoRL
